import Mathlib

/-!
Shallow embedding of the wtg_backend events application core:
the event repository's filtered-query engine (`events_repo.py`), the derived
`closest_date` column (`models.py`), the generic repository
(`base_repo.py`), the user repository and services (`users_repo.py`,
`users_service.py`), the Unit-of-Work scope (`unit_of_work.py`), the
pagination envelopes (`events_service.py`) and the cache-key builder
(`core/utils.py`).

Timestamps are modelled as natural numbers counting microseconds since the
Unix epoch in UTC, and calendar dates as natural numbers counting days since
the epoch; SQL NULL comparison semantics for the derived `closest_date`
aggregate (NULL fails every comparison in a WHERE clause) are modelled by an
`Option Nat` whose `none` case falsifies every date filter.
-/

namespace EventsApp

/-- Microseconds in one hour: `timedelta(hours=1)`. -/
def usPerHour : Nat := 3600000000

/-- Microseconds in one day: `timedelta(days=1)`. -/
def usPerDay : Nat := 86400000000

/-- Microseconds denoted by `time(23, 59, 59, 999999)`. -/
def endOfDayUs : Nat := 86399999999

/-- A row of the `event` table together with its joined `EventDate` rows
(`EventDate.date` timestamps of the owning event). -/
structure Event where
  id : Nat
  location_id : Nat
  category_id : Nat
  dates : List Nat
deriving Repr, DecidableEq

/-- The derived read-only column `Event.closest_date`:
`select min(EventDate.date) where EventDate.event_id == id` — `none` models
the SQL NULL produced when the event has no `EventDate` rows. -/
def closest_date (e : Event) : Option Nat :=
  e.dates.foldr
    (fun d acc =>
      match acc with
      | none => some d
      | some m => some (min d m))
    none

/-- One SQLAlchemy filter expression as produced by
`EventRepository._build_date_filters` and the by-location / by-category
queries. -/
inductive EventFilter where
  | dateGe (t : Nat)
  | dateLt (t : Nat)
  | dateLe (t : Nat)
  | locEq (i : Nat)
  | catEq (i : Nat)
deriving Repr, DecidableEq

/-- Evaluation of one filter on one event row, with SQL NULL semantics for
comparisons against the `closest_date` aggregate. -/
def evalFilter (f : EventFilter) (e : Event) : Bool :=
  match f with
  | .dateGe t =>
    match closest_date e with
    | some d => decide (t ≤ d)
    | none => false
  | .dateLt t =>
    match closest_date e with
    | some d => decide (d < t)
    | none => false
  | .dateLe t =>
    match closest_date e with
    | some d => decide (d ≤ t)
    | none => false
  | .locEq i => e.location_id == i
  | .catEq i => e.category_id == i

/-- Conjunction of a filter list, as `and_(*all_filters)` over a row. -/
def matchesAll (fs : List EventFilter) (e : Event) : Bool :=
  fs.all (fun f => evalFilter f e)

namespace EventRepository

/-- `EventRepository._build_date_filters(date, date_from, date_to, hour)`:
a non-None `date` (dates are always truthy in Python) takes precedence; with
an `hour` that `is not None` it yields the one-hour half-open window, without
one the full-day half-open window; otherwise both `date_from` and `date_to`
must be non-None to yield the inclusive range; else no filter. -/
def build_date_filters (date : Option Nat) (date_from : Option Nat)
    (date_to : Option Nat) (hour : Option Nat) : List EventFilter :=
  match date with
  | some d =>
    match hour with
    | some h =>
      let start_dt := d * usPerDay + h * usPerHour
      let end_dt := start_dt + usPerHour
      [EventFilter.dateGe start_dt, EventFilter.dateLt end_dt]
    | none =>
      let start_of_day := d * usPerDay
      let end_of_day := start_of_day + usPerDay
      [EventFilter.dateGe start_of_day, EventFilter.dateLt end_of_day]
  | none =>
    match date_from, date_to with
    | some df, some dt =>
      let start_dt := df * usPerDay
      let end_dt := dt * usPerDay + endOfDayUs
      [EventFilter.dateGe start_dt, EventFilter.dateLe end_dt]
    | _, _ => []

/-- Key used by `order_by(closest_date.asc())`; the default value for `none`
is irrelevant because every sorted row has already passed the upcoming
filter, which rejects NULL `closest_date`. -/
def closestKey (e : Event) : Nat := (closest_date e).getD 0

/-- Insert into a list sorted by ascending `closestKey`. -/
def insertAsc (e : Event) : List Event → List Event
  | [] => [e]
  | x :: xs =>
    if closestKey e ≤ closestKey x then e :: x :: xs else x :: insertAsc e xs

/-- Sort by ascending `closestKey`, modelling `order_by(closest_date.asc())`. -/
def sortByClosest : List Event → List Event
  | [] => []
  | x :: xs => insertAsc x (sortByClosest xs)

/-- `EventRepository._find_filtered(filters, offset, limit)`: prepend the
upcoming filter `closest_date >= now`, select the matching rows, order by
ascending `closest_date`, then apply `offset` and `limit`. -/
def find_filtered' (now : Nat) (filters : List EventFilter) (db : List Event)
    (offset limit : Nat) : List Event :=
  let all_filters := EventFilter.dateGe now :: filters
  ((sortByClosest (db.filter (matchesAll all_filters))).drop offset).take limit

/-- `EventRepository._count_filtered(filters)`: count of rows matching the
upcoming filter plus `filters`, with no offset or limit. -/
def count_filtered' (now : Nat) (filters : List EventFilter)
    (db : List Event) : Nat :=
  let all_filters := EventFilter.dateGe now :: filters
  (db.filter (matchesAll all_filters)).length

/-- `EventRepository.find_all(offset, limit)`. -/
def find_all (now : Nat) (db : List Event) (offset limit : Nat) : List Event :=
  find_filtered' now [] db offset limit

/-- `EventRepository.count_all()`. -/
def count_all (now : Nat) (db : List Event) : Nat :=
  count_filtered' now [] db

/-- `EventRepository.find_by_location(location_id, offset, limit)`. -/
def find_by_location (now : Nat) (location_id : Nat) (db : List Event)
    (offset limit : Nat) : List Event :=
  find_filtered' now [EventFilter.locEq location_id] db offset limit

/-- `EventRepository.count_by_location(location_id)`. -/
def count_by_location (now : Nat) (location_id : Nat) (db : List Event) : Nat :=
  count_filtered' now [EventFilter.locEq location_id] db

/-- `EventRepository.find_by_category(category_id, offset, limit)`. -/
def find_by_category (now : Nat) (category_id : Nat) (db : List Event)
    (offset limit : Nat) : List Event :=
  find_filtered' now [EventFilter.catEq category_id] db offset limit

/-- `EventRepository.count_by_category(category_id)`. -/
def count_by_category (now : Nat) (category_id : Nat) (db : List Event) : Nat :=
  count_filtered' now [EventFilter.catEq category_id] db

/-- `EventRepository.find_by_date_filter(date, date_from, date_to, hour,
offset, limit)`. -/
def find_by_date_filter (now : Nat) (date date_from date_to hour : Option Nat)
    (db : List Event) (offset limit : Nat) : List Event :=
  find_filtered' now (build_date_filters date date_from date_to hour)
    db offset limit

/-- `EventRepository.count_filtered(date, date_from, date_to, hour)`. -/
def count_filtered (now : Nat) (date date_from date_to hour : Option Nat)
    (db : List Event) : Nat :=
  count_filtered' now (build_date_filters date date_from date_to hour) db

end EventRepository

/-- The paginated envelope `schemas.PaginatedResponse[EventShort]` returned
by the list-style service methods. -/
structure PaginatedResponse where
  total : Nat
  offset : Nat
  limit : Nat
  items : List Event
deriving Repr, DecidableEq

namespace EventService

/-- `EventService.get_all(offset, limit)`: one page query plus one count
query inside the same Unit-of-Work scope. -/
def get_all (now : Nat) (offset limit : Nat) (db : List Event) :
    PaginatedResponse :=
  { total := EventRepository.count_all now db
    offset := offset
    limit := limit
    items := EventRepository.find_all now db offset limit }

/-- `EventService.get_filtered(date, date_from, date_to, hour, offset,
limit)`. -/
def get_filtered (now : Nat) (date date_from date_to hour : Option Nat)
    (offset limit : Nat) (db : List Event) : PaginatedResponse :=
  { total := EventRepository.count_filtered now date date_from date_to hour db
    offset := offset
    limit := limit
    items := EventRepository.find_by_date_filter now date date_from date_to
      hour db offset limit }

end EventService

namespace LocationService

/-- `LocationService.get_events_by_location(location_id, offset, limit)`. -/
def get_events_by_location (now : Nat) (location_id : Nat)
    (offset limit : Nat) (db : List Event) : PaginatedResponse :=
  { total := EventRepository.count_by_location now location_id db
    offset := offset
    limit := limit
    items := EventRepository.find_by_location now location_id db offset limit }

end LocationService

namespace CategoryService

/-- `CategoryService.get_events_by_category(category_id, offset, limit)`. -/
def get_events_by_category (now : Nat) (category_id : Nat)
    (offset limit : Nat) (db : List Event) : PaginatedResponse :=
  { total := EventRepository.count_by_category now category_id db
    offset := offset
    limit := limit
    items := EventRepository.find_by_category now category_id db offset limit }

end CategoryService

/-!
The Unit-of-Work scope and the generic repository (`unit_of_work.py`,
`base_repo.py`). A SQLAlchemy session is modelled by the durable store
visible to other sessions (`committed`), the store as seen through this
session's pending changes (`current`), and a closed flag; rows are
identified by their primary key.
-/

/-- A database session: durable committed store, the session's working view
including uncommitted changes, and whether the session has been closed. -/
structure Session where
  committed : List Nat
  current : List Nat
  closed : Bool
deriving Repr, DecidableEq

namespace Session

/-- `session.commit()`: make the session's pending changes durable. -/
def commit (s : Session) : Session := { s with committed := s.current }

/-- `session.rollback()`: discard the pending changes, restoring the last
committed state. -/
def rollback (s : Session) : Session := { s with current := s.committed }

/-- `session.close()`: release the underlying connection. -/
def close (s : Session) : Session := { s with closed := true }

end Session

namespace UnitOfWork

/-- `UnitOfWork.__aenter__()`: open a fresh session over the durable
store, with no pending changes. -/
def aenter (store : List Nat) : Session :=
  { committed := store, current := store, closed := false }

/-- `UnitOfWork.__aexit__(exc_type, exc_val, traceback)`: rollback when an
unhandled failure is propagating, commit otherwise, and close the session
on either path (the `finally` block). -/
def aexit (excRaised : Bool) (s : Session) : Session :=
  Session.close (if excRaised then Session.rollback s else Session.commit s)

end UnitOfWork

namespace Repository

/-- Generic `Repository.find_all(offset, limit)`:
`select(model).offset(offset).limit(limit)` over the table rows in
insertion/primary-key order. -/
def find_all {α : Type} (table : List α) (offset limit : Nat) : List α :=
  (table.drop offset).take limit

/-- Generic `Repository.get(id)`: first row whose `id` column matches, or
the not-found sentinel. -/
def get (id : Nat) (s : Session) : Option Nat :=
  s.current.find? (fun r => r == id)

/-- Generic `Repository.delete(id)`: execute `DELETE WHERE id == id`, then
`session.commit()` immediately, then return `True` unconditionally. -/
def delete (id : Nat) (s : Session) : Session × Bool :=
  let s1 := { s with current := s.current.filter (fun r => r != id) }
  (Session.commit s1, true)

end Repository

namespace BaseService

/-- `BaseService.delete(obj_id)`: fetch the row first; if absent return
`False` without deleting, otherwise delete through the repository (which
commits), call `uow.commit()` and return `True`. -/
def delete (id : Nat) (s : Session) : Session × Bool :=
  match Repository.get id s with
  | none => (s, false)
  | some _ =>
    let s1 := (Repository.delete id s).1
    (Session.commit s1, true)

end BaseService

/-!
Users: `users_repo.py` and `users_service.py`. The password-hashing
collaborator (`core/security.py`, backed by passlib) is external to the
core, so `hash_password` / `verify_password` are taken as parameters
matching the collaborator contract `hash(plaintext) -> hash`,
`verify(plaintext, hash) -> bool`.
-/

/-- A row of the `user` table (fields the claims touch). -/
structure UserRow where
  id : Nat
  username : String
  email : String
  hashed_password : String
deriving Repr, DecidableEq

/-- A Python exception escaping a service call. -/
inductive PyErr where
  | valueError (msg : String)
  | attributeError (msg : String)
deriving Repr, DecidableEq

namespace UserService

/-- `UserService.check_user_exists(username, email)`: email lookup first,
then username lookup; returns the human-readable conflict message or
`None`. -/
def check_user_exists (username email : String) (db : List UserRow) :
    Option String :=
  if db.any (fun u => u.email == email) then some "Email already exists."
  else if db.any (fun u => u.username == username) then
    some "Username already exists."
  else none

/-- `UserService.create_user(user)`: hash the password, run the uniqueness
check, and only when it passes insert the new row; on conflict return the
message string and leave the table untouched. -/
def create_user (hashF : String → String)
    (username email password : String) (next_id : Nat)
    (db : List UserRow) : List UserRow × (String ⊕ UserRow) :=
  let hashed_pwd := hashF password
  match check_user_exists username email db with
  | some msg => (db, Sum.inl msg)
  | none =>
    let row : UserRow :=
      { id := next_id, username := username, email := email
        hashed_password := hashed_pwd }
    (db ++ [row], Sum.inr row)

/-- `UserService.change_password(user_id, last_pasword, new_password)`: a
missing user or a failed `verify_password` raises
`ValueError("Incorrect data")`; otherwise the code hashes the new password
and then evaluates `self.update_password(...)`, an attribute that neither
`UserService` nor `BaseService` defines (only `UserRepository` has
`update_password`), so the success path raises `AttributeError` before any
write and the scope rolls back, leaving the stored hash unchanged. -/
def change_password (verifyF : String → String → Bool)
    (hashF : String → String) (user_id : Nat)
    (last_pasword new_password : String)
    (db : List UserRow) : List UserRow × Except PyErr UserRow :=
  match db.find? (fun u => u.id == user_id) with
  | none => (db, Except.error (PyErr.valueError "Incorrect data"))
  | some u =>
    if verifyF last_pasword u.hashed_password then
      let _hashed_password := hashF new_password
      (db, Except.error (PyErr.attributeError "update_password"))
    else
      (db, Except.error (PyErr.valueError "Incorrect data"))

end UserService

/-!
Favorites: `UserRepository.add_favorite` / `remove_favorite`. The favorites
relation is the user↔event join table; both mutators first load the user
and the event and silently do nothing when either is missing or the
membership test fails.
-/

/-- Store state for the favorites relation: existing user ids, existing
event ids, and the (user, event) join rows. -/
structure FavState where
  users : List Nat
  events : List Nat
  favorites : List (Nat × Nat)
deriving Repr, DecidableEq

namespace UserRepository

/-- `UserRepository.add_favorite(user_id, event_id)`: append the join row
only when both rows exist and the event is not already in
`user.favorites`. -/
def add_favorite (user_id event_id : Nat) (st : FavState) : FavState :=
  if user_id ∈ st.users ∧ event_id ∈ st.events ∧
      (user_id, event_id) ∉ st.favorites then
    { st with favorites := st.favorites ++ [(user_id, event_id)] }
  else st

/-- `UserRepository.remove_favorite(user_id, event_id)`: remove the join
row only when both rows exist and the event is in `user.favorites`. -/
def remove_favorite (user_id event_id : Nat) (st : FavState) : FavState :=
  if user_id ∈ st.users ∧ event_id ∈ st.events ∧
      (user_id, event_id) ∈ st.favorites then
    { st with favorites := st.favorites.erase (user_id, event_id) }
  else st

end UserRepository

/-- `custom_key_builder(func, namespace, request, response)` from
`core/utils.py`: the key is the f-string `"{namespace}:{path}?{query}"`
with the query string taken verbatim. -/
def custom_key_builder (ns path query : String) : String :=
  ns ++ ":" ++ path ++ "?" ++ query

/-! Helper lemmas about the query pipeline. -/

open EventRepository

theorem mem_insertAsc {x e : Event} {l : List Event} :
    x ∈ insertAsc e l ↔ x = e ∨ x ∈ l := by
  induction l with
  | nil => simp [insertAsc]
  | cons a as ih =>
    by_cases h : closestKey e ≤ closestKey a
    · simp [insertAsc, h]
    · simp [insertAsc, h, ih]
      tauto

theorem mem_sortByClosest {x : Event} {l : List Event} :
    x ∈ sortByClosest l ↔ x ∈ l := by
  induction l with
  | nil => simp [sortByClosest]
  | cons a as ih => simp [sortByClosest, mem_insertAsc, ih]

theorem length_insertAsc (e : Event) (l : List Event) :
    (insertAsc e l).length = l.length + 1 := by
  induction l with
  | nil => rfl
  | cons a as ih =>
    by_cases h : closestKey e ≤ closestKey a
    · simp [insertAsc, h]
    · simp [insertAsc, h, ih]

theorem length_sortByClosest (l : List Event) :
    (sortByClosest l).length = l.length := by
  induction l with
  | nil => rfl
  | cons a as ih => simp [sortByClosest, length_insertAsc, ih]

/-- A row returned by `_find_filtered` comes from the table and satisfies
the conjunction of the upcoming filter with the supplied filters. -/
theorem matches_of_mem_find_filtered {e : Event} {now : Nat}
    {fs : List EventFilter} {db : List Event} {offset limit : Nat}
    (h : e ∈ find_filtered' now fs db offset limit) :
    e ∈ db ∧ matchesAll (EventFilter.dateGe now :: fs) e = true := by
  unfold find_filtered' at h
  exact List.mem_filter.mp
    (mem_sortByClosest.mp (List.mem_of_mem_drop (List.mem_of_mem_take h)))

/-- An event whose `closest_date` is NULL or in the past fails the
upcoming filter. -/
theorem upcoming_false {now : Nat} {e : Event}
    (hbad : closest_date e = none ∨ ∃ t, closest_date e = some t ∧ t < now) :
    evalFilter (EventFilter.dateGe now) e = false := by
  rcases hbad with h | ⟨t, h, hlt⟩
  · simp [evalFilter, h]
  · simp [evalFilter, h]
    omega

theorem matchesAll_false_of_head {now : Nat} {fs : List EventFilter}
    {e : Event} (h : evalFilter (EventFilter.dateGe now) e = false) :
    matchesAll (EventFilter.dateGe now :: fs) e = false := by
  simp [matchesAll, List.all_cons, h]

theorem not_mem_find_filtered {now : Nat} {fs : List EventFilter}
    {db : List Event} {offset limit : Nat} {e : Event}
    (h : matchesAll (EventFilter.dateGe now :: fs) e = false) :
    e ∉ find_filtered' now fs db offset limit := by
  intro hmem
  obtain ⟨-, hall⟩ := matches_of_mem_find_filtered hmem
  rw [hall] at h
  cases h

theorem count_filtered'_middle {now : Nat} {fs : List EventFilter}
    {e : Event}
    (h : matchesAll (EventFilter.dateGe now :: fs) e = false)
    (db1 db2 : List Event) :
    count_filtered' now fs (db1 ++ e :: db2)
      = count_filtered' now fs (db1 ++ db2) := by
  simp [count_filtered', List.filter_append, List.filter_cons, h]

/-- The count query equals the length of the page query evaluated with no
offset and a limit covering the whole table. -/
theorem count_eq_find_length (now : Nat) (fs : List EventFilter)
    (db : List Event) :
    count_filtered' now fs db = (find_filtered' now fs db 0 db.length).length := by
  have hlen :
      (sortByClosest (db.filter (matchesAll (EventFilter.dateGe now :: fs)))).length
        ≤ db.length := by
    rw [length_sortByClosest]
    exact List.length_filter_le _ _
  simp [count_filtered', find_filtered', List.take_of_length_le hlen,
    length_sortByClosest]

/-- Rows returned under date+hour mode have `closest_date` inside the
one-hour half-open window. -/
theorem window_of_mem_date_hour {now d h : Nat} {dfrom dto : Option Nat}
    {db : List Event} {offset limit : Nat} {e : Event}
    (hmem : e ∈ find_by_date_filter now (some d) dfrom dto (some h)
      db offset limit) :
    ∃ t, closest_date e = some t ∧
      d * usPerDay + h * usPerHour ≤ t ∧
      t < d * usPerDay + h * usPerHour + usPerHour := by
  obtain ⟨-, hall⟩ := matches_of_mem_find_filtered hmem
  cases hc : closest_date e with
  | none => simp [matchesAll, build_date_filters, evalFilter, hc] at hall
  | some t =>
    refine ⟨t, rfl, ?_, ?_⟩ <;>
    · simp [matchesAll, build_date_filters, evalFilter, hc, usPerDay,
        usPerHour] at hall
      simp [usPerDay, usPerHour]
      omega

/-- Rows returned under date-only mode have `closest_date` inside the
full-day half-open window. -/
theorem window_of_mem_date_day {now d : Nat} {dfrom dto : Option Nat}
    {db : List Event} {offset limit : Nat} {e : Event}
    (hmem : e ∈ find_by_date_filter now (some d) dfrom dto none
      db offset limit) :
    ∃ t, closest_date e = some t ∧
      d * usPerDay ≤ t ∧ t < d * usPerDay + usPerDay := by
  obtain ⟨-, hall⟩ := matches_of_mem_find_filtered hmem
  cases hc : closest_date e with
  | none => simp [matchesAll, build_date_filters, evalFilter, hc] at hall
  | some t =>
    refine ⟨t, rfl, ?_, ?_⟩ <;>
    · simp [matchesAll, build_date_filters, evalFilter, hc, usPerDay] at hall
      simp [usPerDay]
      omega

/-- Rows returned under range mode have `closest_date` inside the inclusive
range. -/
theorem window_of_mem_range {now df dt : Nat} {hour : Option Nat}
    {db : List Event} {offset limit : Nat} {e : Event}
    (hmem : e ∈ find_by_date_filter now none (some df) (some dt) hour
      db offset limit) :
    ∃ t, closest_date e = some t ∧
      df * usPerDay ≤ t ∧ t ≤ dt * usPerDay + endOfDayUs := by
  obtain ⟨-, hall⟩ := matches_of_mem_find_filtered hmem
  cases hc : closest_date e with
  | none => simp [matchesAll, build_date_filters, evalFilter, hc] at hall
  | some t =>
    refine ⟨t, rfl, ?_, ?_⟩ <;>
    · simp [matchesAll, build_date_filters, evalFilter, hc, usPerDay,
        endOfDayUs] at hall
      simp [usPerDay, endOfDayUs]
      omega

/-- Concrete event used by the witnesses: one `EventDate` at
2025-06-01T14:00:00Z (1748786400000000 microseconds since the epoch). -/
def ev2025 : Event :=
  { id := 1, location_id := 1, category_id := 1, dates := [1748786400000000] }

/-- C1: `find_by_date_filter` picks exactly one date-filter mode by
precedence — date+hour restricts `closest_date` to the half-open one-hour
UTC window, date alone to the full UTC day, else a present `date_from` and
`date_to` pair to the inclusive range `[date_from 00:00:00, date_to
23:59:59.999999]`, and otherwise no date filter is added beyond the
upcoming-events floor; in particular `find_by_date_filter(date=2025-06-01,
date_from=None, date_to=None, hour=14, offset=0, limit=10)` returns only
events with `closest_date` in `[2025-06-01T14:00:00Z, 2025-06-01T15:00:00Z)`
(day 20240 since the epoch, i.e. microsecond timestamps in
`[1748786400000000, 1748790000000000)`). -/
theorem C1_date_filter_modes :
    (∀ (now : Nat) (db : List Event) (offset limit : Nat) (e : Event)
        (d h : Nat) (dfrom dto : Option Nat),
      e ∈ EventRepository.find_by_date_filter now (some d) dfrom dto (some h)
        db offset limit →
      ∃ t, closest_date e = some t ∧
        d * usPerDay + h * usPerHour ≤ t ∧
        t < d * usPerDay + h * usPerHour + usPerHour) ∧
    (∀ (now : Nat) (db : List Event) (offset limit : Nat) (e : Event)
        (d : Nat) (dfrom dto : Option Nat),
      e ∈ EventRepository.find_by_date_filter now (some d) dfrom dto none
        db offset limit →
      ∃ t, closest_date e = some t ∧
        d * usPerDay ≤ t ∧ t < d * usPerDay + usPerDay) ∧
    (∀ (now : Nat) (db : List Event) (offset limit : Nat) (e : Event)
        (df dt : Nat) (hour : Option Nat),
      e ∈ EventRepository.find_by_date_filter now none (some df) (some dt)
        hour db offset limit →
      ∃ t, closest_date e = some t ∧
        df * usPerDay ≤ t ∧ t ≤ dt * usPerDay + endOfDayUs) ∧
    (∀ (now : Nat) (db : List Event) (offset limit : Nat)
        (dfrom dto hour : Option Nat),
      dfrom = none ∨ dto = none →
      EventRepository.find_by_date_filter now none dfrom dto hour
        db offset limit
        = EventRepository.find_all now db offset limit) ∧
    (∀ (now : Nat) (db : List Event) (e : Event),
      e ∈ EventRepository.find_by_date_filter now (some 20240) none none
        (some 14) db 0 10 →
      ∃ t, closest_date e = some t ∧
        1748786400000000 ≤ t ∧ t < 1748790000000000) := by
  refine ⟨?_, ?_, ?_, ?_, ?_⟩
  · intro now db offset limit e d h dfrom dto hmem
    exact window_of_mem_date_hour hmem
  · intro now db offset limit e d dfrom dto hmem
    exact window_of_mem_date_day hmem
  · intro now db offset limit e df dt hour hmem
    exact window_of_mem_range hmem
  · rintro now db offset limit dfrom dto hour (rfl | rfl)
    · cases dto <;> rfl
    · cases dfrom <;> rfl
  · intro now db e hmem
    obtain ⟨t, hc, hlo, hhi⟩ := window_of_mem_date_hour hmem
    refine ⟨t, hc, ?_, ?_⟩ <;>
    · simp [usPerDay, usPerHour] at hlo hhi
      omega

/-- Witness for C1: a concrete event dated 2025-06-01T14:00:00Z is returned
by the example query and indeed falls in the stated window, and with no
date and no complete range the query degenerates to `find_all`. -/
theorem C1_date_filter_modes_witness :
    (∃ t, closest_date ev2025 = some t ∧
      1748786400000000 ≤ t ∧ t < 1748790000000000) ∧
    EventRepository.find_by_date_filter 0 none (some 5) none none [ev2025] 0 10
      = EventRepository.find_all 0 [ev2025] 0 10 :=
  ⟨C1_date_filter_modes.2.2.2.2 0 [ev2025] ev2025 (by decide),
   C1_date_filter_modes.2.2.2.1 0 [ev2025] 0 10 (some 5) none none
     (Or.inr rfl)⟩

/-- C2: an event with no `EventDate` rows (NULL `closest_date`) or with a
`closest_date` earlier than the current UTC time is excluded from
`find_all`, `find_by_date_filter`, `find_by_location` and
`find_by_category` and from the corresponding counts, regardless of any
other filter matching. -/
theorem C2_upcoming_floor_excludes (now : Nat) (e : Event)
    (hbad : closest_date e = none ∨ ∃ t, closest_date e = some t ∧ t < now) :
    (∀ (db : List Event) (offset limit : Nat),
      e ∉ EventRepository.find_all now db offset limit) ∧
    (∀ (date dfrom dto hour : Option Nat) (db : List Event)
        (offset limit : Nat),
      e ∉ EventRepository.find_by_date_filter now date dfrom dto hour
        db offset limit) ∧
    (∀ (lid : Nat) (db : List Event) (offset limit : Nat),
      e ∉ EventRepository.find_by_location now lid db offset limit) ∧
    (∀ (cid : Nat) (db : List Event) (offset limit : Nat),
      e ∉ EventRepository.find_by_category now cid db offset limit) ∧
    (∀ db1 db2 : List Event,
      EventRepository.count_all now (db1 ++ e :: db2)
        = EventRepository.count_all now (db1 ++ db2)) ∧
    (∀ (date dfrom dto hour : Option Nat) (db1 db2 : List Event),
      EventRepository.count_filtered now date dfrom dto hour (db1 ++ e :: db2)
        = EventRepository.count_filtered now date dfrom dto hour
            (db1 ++ db2)) ∧
    (∀ (lid : Nat) (db1 db2 : List Event),
      EventRepository.count_by_location now lid (db1 ++ e :: db2)
        = EventRepository.count_by_location now lid (db1 ++ db2)) ∧
    (∀ (cid : Nat) (db1 db2 : List Event),
      EventRepository.count_by_category now cid (db1 ++ e :: db2)
        = EventRepository.count_by_category now cid (db1 ++ db2)) := by
  have hfail : ∀ fs : List EventFilter,
      matchesAll (EventFilter.dateGe now :: fs) e = false :=
    fun _ => matchesAll_false_of_head (upcoming_false hbad)
  refine ⟨fun db o l => not_mem_find_filtered (hfail _),
    fun date dfrom dto hour db o l => not_mem_find_filtered (hfail _),
    fun lid db o l => not_mem_find_filtered (hfail _),
    fun cid db o l => not_mem_find_filtered (hfail _),
    fun db1 db2 => count_filtered'_middle (hfail _) db1 db2,
    fun date dfrom dto hour db1 db2 => count_filtered'_middle (hfail _) db1 db2,
    fun lid db1 db2 => count_filtered'_middle (hfail _) db1 db2,
    fun cid db1 db2 => count_filtered'_middle (hfail _) db1 db2⟩

/-- Concrete event with no `EventDate` rows, used by the C2 witness. -/
def evNoDates : Event :=
  { id := 2, location_id := 1, category_id := 1, dates := [] }

/-- Witness for C2: an event with no dates is excluded from a concrete
`find_all` page and from a concrete count. -/
theorem C2_upcoming_floor_excludes_witness :
    evNoDates ∉ EventRepository.find_all 100 [evNoDates] 0 10 ∧
    EventRepository.count_all 100 ([] ++ evNoDates :: [ev2025])
      = EventRepository.count_all 100 ([] ++ [ev2025]) :=
  ⟨(C2_upcoming_floor_excludes 100 evNoDates (Or.inl rfl)).1 [evNoDates] 0 10,
   (C2_upcoming_floor_excludes 100 evNoDates (Or.inl rfl)).2.2.2.2.1
     [] [ev2025]⟩

/-- C3: for every paginated event query, the `total` field of the returned
envelope equals the number of rows matching the same filter predicate with
no offset/limit applied (here: the length of the page query rerun with
offset 0 and a limit covering the whole table), and `total` does not depend
on the requested offset/limit, so repeated calls on the same store return
the same total. -/
theorem C3_paginated_total_is_count (now : Nat) (db : List Event)
    (date dfrom dto hour : Option Nat) (lid cid o1 l1 o2 l2 : Nat) :
    ((EventService.get_all now o1 l1 db).total
        = (EventRepository.find_all now db 0 db.length).length) ∧
    ((EventService.get_all now o1 l1 db).total
        = (EventService.get_all now o2 l2 db).total) ∧
    ((EventService.get_filtered now date dfrom dto hour o1 l1 db).total
        = (EventRepository.find_by_date_filter now date dfrom dto hour
            db 0 db.length).length) ∧
    ((EventService.get_filtered now date dfrom dto hour o1 l1 db).total
        = (EventService.get_filtered now date dfrom dto hour o2 l2 db).total) ∧
    ((LocationService.get_events_by_location now lid o1 l1 db).total
        = (EventRepository.find_by_location now lid db 0 db.length).length) ∧
    ((LocationService.get_events_by_location now lid o1 l1 db).total
        = (LocationService.get_events_by_location now lid o2 l2 db).total) ∧
    ((CategoryService.get_events_by_category now cid o1 l1 db).total
        = (EventRepository.find_by_category now cid db 0 db.length).length) ∧
    ((CategoryService.get_events_by_category now cid o1 l1 db).total
        = (CategoryService.get_events_by_category now cid o2 l2 db).total) :=
  ⟨count_eq_find_length now [] db, rfl,
   count_eq_find_length now _ db, rfl,
   count_eq_find_length now _ db, rfl,
   count_eq_find_length now _ db, rfl⟩

/-- Counterexample to C4 as stated: a scope that deletes a row through
`Repository.delete` (which calls `session.commit()` immediately) and then
exits with an unhandled failure does roll back and close, yet the durable
store is not the store of scope entry — the mid-scope commit already made
the deletion durable. -/
theorem C4_counterexample_midscope_commit :
    (UnitOfWork.aexit true
        (Repository.delete 1 (UnitOfWork.aenter [1])).1).closed = true ∧
    (UnitOfWork.aexit true
        (Repository.delete 1 (UnitOfWork.aenter [1])).1).committed ≠ [1] := by
  exact ⟨rfl, by decide⟩

/-- C4 (amended): exiting the Unit-of-Work scope without an unhandled
failure commits the session's pending changes; exiting with an unhandled
failure rolls back the uncommitted changes, restoring the last state
committed within the scope (which is the scope-entry state only when no
mid-scope commit, such as a repository delete, occurred); the session is
closed on every exit path regardless of outcome. -/
theorem C4_aexit_commit_rollback_close (s : Session) :
    ((UnitOfWork.aexit false s).committed = s.current) ∧
    ((UnitOfWork.aexit false s).current = s.current) ∧
    ((UnitOfWork.aexit true s).current = s.committed) ∧
    ((UnitOfWork.aexit true s).committed = s.committed) ∧
    ((UnitOfWork.aexit false s).closed = true) ∧
    ((UnitOfWork.aexit true s).closed = true) ∧
    (∀ store : List Nat,
      (UnitOfWork.aexit true (UnitOfWork.aenter store)).committed = store) := by
  refine ⟨rfl, rfl, rfl, rfl, rfl, rfl, fun store => rfl⟩

/-- Hash collaborator model for the concrete user theorems: prepends a
fixed marker to the plaintext. -/
def demoHash (plain : String) : String := "H:" ++ plain

/-- Verify collaborator model matching `demoHash`. -/
def demoVerify (plain hashed : String) : Bool := hashed == demoHash plain

/-- Concrete stored user row for the user-service theorems. -/
def aliceRow : UserRow :=
  { id := 1, username := "alice", email := "alice@example.com"
    hashed_password := "H:old" }

/-- C5 is a code bug on its success half: with a wrong current password the
service raises `ValueError` (mapped to the BadRequest-class failure) and
the stored hash is unchanged, as the claim says; but with the CORRECT
current password the code evaluates the undefined attribute
`self.update_password`, so it raises `AttributeError` instead of replacing
the stored hash and returning the updated user — the store is left
unchanged on both paths. -/
theorem C5_change_password_success_path_crashes :
    (UserService.change_password demoVerify demoHash 1 "wrong" "new"
        [aliceRow]
      = ([aliceRow], Except.error (PyErr.valueError "Incorrect data"))) ∧
    (UserService.change_password demoVerify demoHash 1 "old" "new"
        [aliceRow]
      = ([aliceRow],
          Except.error (PyErr.attributeError "update_password"))) := by
  exact ⟨rfl, rfl⟩

/-- C6: when a user with the given email or username already exists,
`create_user` returns the human-readable conflict message instead of
raising, performs no insert, and leaves the row count unchanged. -/
theorem C6_create_user_conflict (hashF : String → String)
    (username email password : String) (next_id : Nat) (db : List UserRow)
    (hdup : (∃ u ∈ db, u.email = email) ∨ (∃ u ∈ db, u.username = username)) :
    (∃ msg, UserService.create_user hashF username email password next_id db
        = (db, Sum.inl msg)) ∧
    ((UserService.create_user hashF username email password next_id db).1.length
        = db.length) := by
  have hex : ∃ msg,
      UserService.check_user_exists username email db = some msg := by
    rcases hdup with ⟨u, hu, he⟩ | ⟨u, hu, hn⟩
    · have hE : db.any (fun v => v.email == email) = true :=
        List.any_eq_true.mpr ⟨u, hu, by simp [he]⟩
      exact ⟨"Email already exists.",
        by simp [UserService.check_user_exists, hE]⟩
    · by_cases hE : db.any (fun v => v.email == email) = true
      · exact ⟨"Email already exists.",
          by simp [UserService.check_user_exists, hE]⟩
      · have hN : db.any (fun v => v.username == username) = true :=
          List.any_eq_true.mpr ⟨u, hu, by simp [hn]⟩
        exact ⟨"Username already exists.",
          by simp [UserService.check_user_exists, hE, hN]⟩
  obtain ⟨msg, hmsg⟩ := hex
  constructor
  · exact ⟨msg, by simp [UserService.create_user, hmsg]⟩
  · simp [UserService.create_user, hmsg]

/-- Witness for C6: creating a second user with the already-stored email
returns a conflict message and leaves the one-row table unchanged. -/
theorem C6_create_user_conflict_witness :
    (∃ msg, UserService.create_user demoHash "bob" "alice@example.com" "pw" 2
        [aliceRow] = ([aliceRow], Sum.inl msg)) ∧
    ((UserService.create_user demoHash "bob" "alice@example.com" "pw" 2
        [aliceRow]).1.length = [aliceRow].length) :=
  C6_create_user_conflict demoHash "bob" "alice@example.com" "pw" 2 [aliceRow]
    (Or.inl ⟨aliceRow, List.Mem.head _, rfl⟩)

/-- C7: for an existing user and event, adding a favorite twice equals
adding it once (no duplicate join row, no error), and removing a
non-member pair leaves the relation unchanged and raises no error. -/
theorem C7_favorite_idempotent (st : FavState) (u e : Nat)
    (hu : u ∈ st.users) (he : e ∈ st.events) :
    (UserRepository.add_favorite u e (UserRepository.add_favorite u e st)
      = UserRepository.add_favorite u e st) ∧
    ((u, e) ∉ st.favorites → UserRepository.remove_favorite u e st = st) := by
  constructor
  · by_cases hmem : (u, e) ∈ st.favorites
    · have h1 : UserRepository.add_favorite u e st = st := by
        simp [UserRepository.add_favorite, hmem]
      simp only [h1]
    · have h1 : UserRepository.add_favorite u e st
          = { st with favorites := st.favorites ++ [(u, e)] } := by
        simp [UserRepository.add_favorite, hu, he, hmem]
      rw [h1]
      simp [UserRepository.add_favorite]
  · intro hnm
    simp [UserRepository.remove_favorite, hnm]

/-- Witness for C7 at a concrete store with one user and one event. -/
theorem C7_favorite_idempotent_witness :
    (UserRepository.add_favorite 1 2
        (UserRepository.add_favorite 1 2 ⟨[1], [2], []⟩)
      = UserRepository.add_favorite 1 2 ⟨[1], [2], []⟩) ∧
    ((1, 2) ∉ FavState.favorites ⟨[1], [2], []⟩ →
      UserRepository.remove_favorite 1 2 ⟨[1], [2], []⟩ = ⟨[1], [2], []⟩) :=
  C7_favorite_idempotent ⟨[1], [2], []⟩ 1 2 (by decide) (by decide)

/-- C8: the cache key is exactly `namespace ++ ":" ++ path ++ "?" ++ query`
with the query string verbatim, so two requests to the same path with
distinct query strings — even ones denoting the same parameter set in a
different order — get distinct cache keys. -/
theorem C8_cache_key_verbatim (ns path q1 q2 : String) (hne : q1 ≠ q2) :
    (∀ q : String, custom_key_builder ns path q
        = ns ++ ":" ++ path ++ "?" ++ q) ∧
    custom_key_builder ns path q1 ≠ custom_key_builder ns path q2 := by
  refine ⟨fun q => rfl, fun hkey => hne ?_⟩
  have hdata := congrArg String.data hkey
  simp only [custom_key_builder, String.data_append] at hdata
  exact String.ext (List.append_cancel_left hdata)

/-- Witness for C8: the two orderings of `offset=0&limit=10` produce
distinct keys for the same path. -/
theorem C8_cache_key_verbatim_witness :
    (∀ q : String, custom_key_builder "cache" "/api/v1/events" q
        = "cache" ++ ":" ++ "/api/v1/events" ++ "?" ++ q) ∧
    custom_key_builder "cache" "/api/v1/events" "offset=0&limit=10"
      ≠ custom_key_builder "cache" "/api/v1/events" "limit=10&offset=0" :=
  C8_cache_key_verbatim "cache" "/api/v1/events" "offset=0&limit=10"
    "limit=10&offset=0" (by decide)

/-- C9: the generic `find_all(offset, limit)` returns at most `limit` rows,
starting at position `offset`, in the table's insertion/primary-key order:
position `i` of the page is position `offset + i` of the table. -/
theorem C9_find_all_pagination {α : Type} (table : List α)
    (offset limit : Nat) :
    ((Repository.find_all table offset limit).length ≤ limit) ∧
    (∀ i : Nat, (Repository.find_all table offset limit)[i]?
        = if i < limit then table[offset + i]? else none) := by
  constructor
  · simp [Repository.find_all, List.length_take]
  · intro i
    simp [Repository.find_all, List.getElem?_take, List.getElem?_drop]

/-- C10: `Repository.delete(id)` commits the deletion immediately inside
the scope and returns `True` unconditionally — also when no such row
exists, in which case the store is untouched, so the repository return
value cannot distinguish the two cases; `BaseService.delete` compensates by
fetching first, returning `False` and leaving the session untouched when
the row is absent and `True` when it exists. -/
theorem C10_delete_commits_immediately (s : Session) (id : Nat) :
    ((Repository.delete id s).2 = true) ∧
    ((Repository.delete id s).1.committed
        = (Repository.delete id s).1.current) ∧
    ((Repository.delete id s).1.current
        = s.current.filter (fun r => r != id)) ∧
    (id ∉ s.current → Repository.delete id s = (Session.commit s, true)) ∧
    (id ∉ s.current → BaseService.delete id s = (s, false)) ∧
    (id ∈ s.current → (BaseService.delete id s).2 = true) := by
  have hfilter : id ∉ s.current →
      s.current.filter (fun r => r != id) = s.current := by
    intro h
    refine List.filter_eq_self.mpr (fun x hx => ?_)
    simp only [bne_iff_ne, ne_eq, decide_eq_true_eq]
    rintro rfl
    exact h hx
  refine ⟨rfl, rfl, rfl, ?_, ?_, ?_⟩
  · intro h
    simp [Repository.delete, hfilter h]
  · intro h
    have hget : Repository.get id s = none := by
      refine List.find?_eq_none.mpr (fun x hx => ?_)
      simp only [beq_iff_eq]
      rintro rfl
      exact h hx
    simp [BaseService.delete, hget]
  · intro hmem
    cases hfind : Repository.get id s with
    | none =>
      exfalso
      have := List.find?_eq_none.mp hfind id hmem
      simp at this
    | some r =>
      simp [BaseService.delete, hfind]

/-- Witness for C10: deleting id 1 from a one-row store and deleting a
missing id behave as stated. -/
theorem C10_delete_commits_immediately_witness :
    ((Repository.delete 2 ⟨[1], [1], false⟩).2 = true) ∧
    (Repository.delete 2 ⟨[1], [1], false⟩
        = (Session.commit ⟨[1], [1], false⟩, true)) ∧
    (BaseService.delete 2 ⟨[1], [1], false⟩ = (⟨[1], [1], false⟩, false)) ∧
    ((BaseService.delete 1 ⟨[1], [1], false⟩).2 = true) :=
  ⟨(C10_delete_commits_immediately ⟨[1], [1], false⟩ 2).1,
   (C10_delete_commits_immediately ⟨[1], [1], false⟩ 2).2.2.2.1 (by decide),
   (C10_delete_commits_immediately ⟨[1], [1], false⟩ 2).2.2.2.2.1 (by decide),
   (C10_delete_commits_immediately ⟨[1], [1], false⟩ 1).2.2.2.2.2 (by decide)⟩

end EventsApp
